import Mathlib

/-!
Shallow embedding of two jets of the urbit runtime and their wrappers:

* src/pkg/urbit/jets/d/up_lrsin.c : u3qdu_lrsin (double-rotation entry point
  of the balanced ordered-tree jets) and its wrapper u3wdu_lrsin;
* src/gen164/6/face.c : the type-annotation jet kernel j2_mby(Pt6, face)
  and its wrapper j2_mb(Pt6, face).

Nouns are atoms (arbitrary-precision naturals) or cells (ordered pairs).
A bailout (u3m_bail / u2_cm_bail) is modelled as the error branch of an
Except value carrying the bail mote used by the C code: c3__exit for the
rotation jet and the u3x accessors, c3__fail for the face wrapper.  These
motes are the runtime realization of the failure kinds the design document
calls BadShape / NotACell / Exit.

The single-rotation primitive u3qdu_llos is external to the excerpt (it is
declared in all.h and lives outside src/); the embedding abstracts it as an
explicit function parameter named los, so that every statement about
u3qdu_lrsin is quantified over it, exactly as the specification states the
double-rotation properties relative to the single-rotation primitive.
-/

/-- A noun: an atom (arbitrary-precision non-negative integer) or a cell
(ordered pair of nouns).  From the u3_noun data model. -/
inductive Noun : Type
  | atom : Nat → Noun
  | cell : Noun → Noun → Noun
deriving DecidableEq, Repr

/-- Bail motes used by the two source files: u3m_bail(c3__exit) and
u2_cm_bail(c3__fail). -/
inductive Bail : Type
  | exit : Bail
  | fail : Bail
deriving DecidableEq, Repr

/-- The mote c3__llos: the four ASCII bytes of the tag, least significant
first, as in the c3__ macros. -/
def c3__llos : Nat := 0x736f6c6c

/-- The mote c3__rlos. -/
def c3__rlos : Nat := 0x736f6c72

/-- The mote c3__void. -/
def c3__void : Nat := 0x64696f76

/-- The mote c3__face. -/
def c3__face : Nat := 0x65636166

/-- u3nt / u2nt: build the triple [a b c]. -/
def u3nt (a b c : Noun) : Noun := Noun.cell a (Noun.cell b c)

/-- u3nq: build the quadruple [a b c d]. -/
def u3nq (a b c d : Noun) : Noun := Noun.cell a (Noun.cell b (Noun.cell c d))

/-- u3x_cell: split a into head and tail, bailing with c3__exit if a is an
atom. -/
def u3x_cell : Noun → Except Bail (Noun × Noun)
  | Noun.cell h t => Except.ok (h, t)
  | Noun.atom _ => Except.error Bail.exit

/-- u3x_qual: split a as the quadruple [b c d e], bailing with c3__exit on
any shape mismatch. -/
def u3x_qual : Noun → Except Bail (Noun × Noun × Noun × Noun)
  | Noun.cell b (Noun.cell c (Noun.cell d e)) => Except.ok (b, c, d, e)
  | _ => Except.error Bail.exit

/-- u3qdu_lrsin from src/pkg/urbit/jets/d/up_lrsin.c, with the external
single-rotation primitive u3qdu_llos abstracted as the parameter los.
The input a is split as [n_a l_a m_a r_a]; l_a must be a cell whose tail is
a cell whose tail b is split as [n_b l_b m_b r_b]; the head of l_a must be
one of the two tag atoms c3__llos / c3__rlos, selecting one of the two
compositions of los; every other shape bails with c3__exit.  Reference
counting (u3k) is identity in the immutable embedding. -/
def u3qdu_lrsin (los : Noun → Noun → Noun → Noun → Except Bail Noun)
    (a : Noun) : Except Bail Noun :=
  match u3x_qual a with
  | Except.error e => Except.error e
  | Except.ok (n_a, l_a, m_a, r_a) =>
    match l_a with
    | Noun.atom _ => Except.error Bail.exit
    | Noun.cell hol tl =>
      match u3x_cell tl with
      | Except.error e => Except.error e
      | Except.ok (_, b) =>
        match u3x_qual b with
        | Except.error e => Except.error e
        | Except.ok (n_b, l_b, m_b, r_b) =>
          match hol with
          | Noun.cell _ _ => Except.error Bail.exit
          | Noun.atom v =>
            if v = c3__llos then
              match los n_a r_b m_a r_a with
              | Except.error e => Except.error e
              | Except.ok inner => los n_b l_b m_b inner
            else if v = c3__rlos then
              match los n_b r_b m_a r_a with
              | Except.error e => Except.error e
              | Except.ok inner => los n_a l_b m_b inner
            else Except.error Bail.exit

/-- Fueled axis fetch: walk the bits of the axis from most significant to
least significant past the leading 1 bit, taking the head on 0 and the tail
on 1, failing as soon as the walk steps into an atom or the axis is 0.
The fuel argument only makes the recursion structural; fetching axis a with
fuel a always has enough fuel since the axis halves at each step. -/
def u3r_atF : Nat → Nat → Noun → Option Noun
  | 0, _, _ => none
  | _ + 1, 0, _ => none
  | _ + 1, 1, n => some n
  | fuel + 1, a, n =>
    match u3r_atF fuel (a / 2) n with
    | some (Noun.cell h t) => some (if a % 2 = 0 then h else t)
    | _ => none

/-- u3r_at / u2_cr_at: fetch the subnoun at the given axis, or none if the
axis does not resolve. -/
def u3r_at (a : Nat) (n : Noun) : Option Noun := u3r_atF a a n

/-- u3wdu_lrsin from src/pkg/urbit/jets/d/up_lrsin.c: fetch the sample at
axis u3x_sam = 6 of the core; if the axis does not resolve or the sample is
an atom, bail with c3__exit; otherwise run the kernel on the sample. -/
def u3wdu_lrsin (los : Noun → Noun → Noun → Noun → Except Bail Noun)
    (cor : Noun) : Except Bail Noun :=
  match u3r_at 6 cor with
  | none => Except.error Bail.exit
  | some a =>
    match a with
    | Noun.atom _ => Except.error Bail.exit
    | Noun.cell h t => u3qdu_lrsin los (Noun.cell h t)

/-- The face jet kernel j2_mby(Pt6, face) from src/gen164/6/face.c: if tip
is the atom c3__void return c3__void itself, otherwise build the triple
[c3__face cog tip]. -/
def j2_mby_Pt6_face (cog tip : Noun) : Noun :=
  if tip = Noun.atom c3__void then Noun.atom c3__void
  else u3nt (Noun.atom c3__face) cog tip

/-- The face jet wrapper j2_mb(Pt6, face) from src/gen164/6/face.c: fetch
the two sample axes u2_cv_sam_2 = 12 and u2_cv_sam_3 = 13 from the core; if
either fails to resolve, bail with c3__fail; otherwise run the kernel. -/
def j2_mb_Pt6_face (cor : Noun) : Except Bail Noun :=
  match u3r_at 12 cor, u3r_at 13 cor with
  | some cog, some tip => Except.ok (j2_mby_Pt6_face cog tip)
  | _, _ => Except.error Bail.fail

/-- In-order key sequence of a noun read as an ordered-tree node
[key left-subtree metadata right-subtree]; anything not of that shape is a
leaf.  Follows the Ordered-Tree Node data model of the design document. -/
def keysOf : Noun → List Noun
  | Noun.cell n (Noun.cell l (Noun.cell _ r)) => keysOf l ++ [n] ++ keysOf r
  | _ => []

/-- In-order metadata sequence of a noun read as an ordered-tree node
[key left-subtree metadata right-subtree]. -/
def metaOf : Noun → List Noun
  | Noun.cell _ (Noun.cell l (Noun.cell m r)) => metaOf l ++ [m] ++ metaOf r
  | _ => []

/-- Follows the words of the specification, for comparison with the code:
the in-order key sequence of the double-rotation input, a node
[n_a l_a m_a r_a] whose tagged left child l_a = [tag x b] stands for the
node quad b, so the sequence is keysOf b, then n_a, then keysOf r_a. -/
def specInorderKeys : Noun → Option (List Noun)
  | Noun.cell n_a (Noun.cell (Noun.cell _ (Noun.cell _ b)) (Noun.cell _ r_a)) =>
      some (keysOf b ++ [n_a] ++ keysOf r_a)
  | _ => none

/-- The accepted input shape of u3qdu_lrsin, fully decomposed: root quad
[n_a l_a m_a r_a] with tagged left child l_a = [tag x [n_b l_b m_b r_b]]. -/
def lrsinArg (tag : Nat) (n_a x n_b l_b m_b r_b m_a r_a : Noun) : Noun :=
  u3nq n_a (Noun.cell (Noun.atom tag)
    (Noun.cell x (u3nq n_b l_b m_b r_b))) m_a r_a

/-- A concrete instantiation of the external single-rotation primitive for
witnesses: the plain node constructor, which preserves in-order keys and
metadata. -/
def losNode (n l m r : Noun) : Except Bail Noun := Except.ok (u3nq n l m r)

/-- A concrete core whose sample (axis 6) is the cell [1 2], so that
axis 12 resolves to atom 1 and axis 13 to atom 2. -/
def corEx : Noun :=
  Noun.cell (Noun.atom 0)
    (Noun.cell (Noun.cell (Noun.atom 1) (Noun.atom 2)) (Noun.atom 3))

theorem u3qdu_lrsin_tagged (los : Noun → Noun → Noun → Noun → Except Bail Noun)
    (v : Nat) (n_a x n_b l_b m_b r_b m_a r_a : Noun) :
    u3qdu_lrsin los (lrsinArg v n_a x n_b l_b m_b r_b m_a r_a) =
      if v = c3__llos then
        (los n_a r_b m_a r_a).bind (fun inner => los n_b l_b m_b inner)
      else if v = c3__rlos then
        (los n_b r_b m_a r_a).bind (fun inner => los n_a l_b m_b inner)
      else Except.error Bail.exit := by
  unfold u3qdu_lrsin lrsinArg u3nq u3x_qual u3x_cell
  by_cases h1 : v = c3__llos
  · simp [h1]
    cases los n_a r_b m_a r_a <;> simp [Except.bind]
  · by_cases h2 : v = c3__rlos
    · simp [h1, h2]
      cases los n_b r_b m_a r_a <;> simp [Except.bind, c3__llos, c3__rlos]
    · simp [h1, h2]

/-- Claim C1: on an input [n_a l_a m_a r_a] whose left child l_a is the
tagged cell [c3__llos x [n_b l_b m_b r_b]], u3qdu_lrsin returns exactly the
composition of two calls to the single-rotation primitive, inner first:
the inner call los n_a r_b m_a r_a rebuilds the subtree under the original
root key n_a, and the outer call los n_b l_b m_b (inner result) promotes
the inner key n_b. -/
theorem C1_llos_composition
    (los : Noun → Noun → Noun → Noun → Except Bail Noun)
    (n_a x n_b l_b m_b r_b m_a r_a : Noun) :
    u3qdu_lrsin los (lrsinArg c3__llos n_a x n_b l_b m_b r_b m_a r_a) =
      (los n_a r_b m_a r_a).bind (fun inner => los n_b l_b m_b inner) := by
  rw [u3qdu_lrsin_tagged]
  simp

/-- Claim C2: on an input [n_a l_a m_a r_a] whose left child l_a is the
tagged cell [c3__rlos x [n_b l_b m_b r_b]], u3qdu_lrsin dispatches to the
single composition los n_a l_b m_b (los n_b r_b m_a r_a); moreover the two
tag-selected compositions are symmetric: the c3__rlos result coincides with
the c3__llos result in which the roles of the outer key n_a and the inner
key n_b are exchanged. -/
theorem C2_rlos_composition
    (los : Noun → Noun → Noun → Noun → Except Bail Noun)
    (n_a x n_b l_b m_b r_b m_a r_a : Noun) :
    u3qdu_lrsin los (lrsinArg c3__rlos n_a x n_b l_b m_b r_b m_a r_a) =
      (los n_b r_b m_a r_a).bind (fun inner => los n_a l_b m_b inner) ∧
    u3qdu_lrsin los (lrsinArg c3__rlos n_a x n_b l_b m_b r_b m_a r_a) =
      u3qdu_lrsin los (lrsinArg c3__llos n_b x n_a l_b m_b r_b m_a r_a) := by
  rw [u3qdu_lrsin_tagged, u3qdu_lrsin_tagged]
  refine ⟨by simp [c3__llos, c3__rlos], ?_⟩
  simp [c3__llos, c3__rlos]

/-- Claim C3: the face jet kernel applied to the type argument c3__void
returns the atom c3__void itself, for every name argument cog, without
constructing any cell and without using cog in the result. -/
theorem C3_void_propagation (cog : Noun) :
    j2_mby_Pt6_face cog (Noun.atom c3__void) = Noun.atom c3__void := by
  simp [j2_mby_Pt6_face]

/-- Claim C9: for every cog and every tip different from the atom c3__void,
the face jet kernel returns the triple [c3__face cog tip] whose second and
third components are the argument nouns themselves. -/
theorem C9_face_triple (cog tip : Noun) (h : tip ≠ Noun.atom c3__void) :
    j2_mby_Pt6_face cog tip =
      Noun.cell (Noun.atom c3__face) (Noun.cell cog tip) := by
  simp [j2_mby_Pt6_face, u3nt, h]

/-- Witness for C9 at cog = atom 0, tip = atom 1. -/
theorem C9_face_triple_witness :
    Noun.atom 1 ≠ Noun.atom c3__void ∧
    j2_mby_Pt6_face (Noun.atom 0) (Noun.atom 1) =
      Noun.cell (Noun.atom c3__face) (Noun.cell (Noun.atom 0) (Noun.atom 1)) :=
  ⟨by decide, C9_face_triple (Noun.atom 0) (Noun.atom 1) (by decide)⟩

/-- Claim C5: on every input quad whose left child is an atom (for example
the empty sentinel), u3qdu_lrsin bails hard with the c3__exit mote — the
runtime realization of the BadShape failure — and never returns a computed
noun, whatever the single-rotation primitive is. -/
theorem C5_atom_left_child_bails
    (los : Noun → Noun → Noun → Noun → Except Bail Noun)
    (n : Noun) (k : Nat) (m r : Noun) :
    u3qdu_lrsin los (u3nq n (Noun.atom k) m r) = Except.error Bail.exit := by
  simp [u3qdu_lrsin, u3nq, u3x_qual]

/-- Claim C6: on every input quad whose left child is a cell headed by
anything other than the tag atoms c3__llos and c3__rlos — in particular by
a cell — u3qdu_lrsin bails with the c3__exit mote and never returns a
computed noun, whatever the single-rotation primitive is and whatever sits
in the rest of the left child. -/
theorem C6_bad_tag_bails
    (los : Noun → Noun → Noun → Noun → Except Bail Noun)
    (n hol tl m r : Noun)
    (h1 : hol ≠ Noun.atom c3__llos) (h2 : hol ≠ Noun.atom c3__rlos) :
    u3qdu_lrsin los (u3nq n (Noun.cell hol tl) m r) =
      Except.error Bail.exit := by
  unfold u3qdu_lrsin u3nq u3x_qual u3x_cell
  match tl with
  | Noun.atom _ => simp
  | Noun.cell x b =>
    simp only
    match b with
    | Noun.atom _ => simp
    | Noun.cell _ (Noun.atom _) => simp
    | Noun.cell _ (Noun.cell _ (Noun.atom _)) => simp
    | Noun.cell nb (Noun.cell lb (Noun.cell mb rb)) =>
      simp only
      match hol with
      | Noun.cell _ _ => simp
      | Noun.atom v =>
        have hv1 : v ≠ c3__llos := fun hv => h1 (by rw [hv])
        have hv2 : v ≠ c3__rlos := fun hv => h2 (by rw [hv])
        simp [hv1, hv2]

/-- Witness for C6 at the tag atom 0. -/
theorem C6_bad_tag_bails_witness :
    Noun.atom 0 ≠ Noun.atom c3__llos ∧
    Noun.atom 0 ≠ Noun.atom c3__rlos ∧
    u3qdu_lrsin losNode
        (u3nq (Noun.atom 1) (Noun.cell (Noun.atom 0) (Noun.atom 2))
          (Noun.atom 3) (Noun.atom 4)) =
      Except.error Bail.exit :=
  ⟨by decide, by decide,
    C6_bad_tag_bails losNode (Noun.atom 1) (Noun.atom 0) (Noun.atom 2)
      (Noun.atom 3) (Noun.atom 4) (by decide) (by decide)⟩

/-- Claim C10: the result of u3qdu_lrsin does not depend on the noun
sitting between the tag and the inner quad inside the left child — two
inputs of the accepted shape differing only in that component produce
structurally identical results — yet that component is required to exist:
if the left child is a cell whose tail is an atom, the jet bails with
c3__exit. -/
theorem C10_bookkeeping_component_ignored
    (los : Noun → Noun → Noun → Noun → Except Bail Noun)
    (n hol x1 x2 b m r : Noun) :
    u3qdu_lrsin los (u3nq n (Noun.cell hol (Noun.cell x1 b)) m r) =
      u3qdu_lrsin los (u3nq n (Noun.cell hol (Noun.cell x2 b)) m r) ∧
    ∀ k : Nat,
      u3qdu_lrsin los (u3nq n (Noun.cell hol (Noun.atom k)) m r) =
        Except.error Bail.exit := by
  constructor
  · simp [u3qdu_lrsin, u3nq, u3x_qual, u3x_cell]
  · intro k
    simp [u3qdu_lrsin, u3nq, u3x_qual, u3x_cell]

/-- Claim C8: both jet kernels are pure and deterministic — structurally
identical argument nouns always produce structurally identical results.  In
this embedding both kernels are functions of their argument nouns alone, so
determinism is equality under equal inputs. -/
theorem C8_pure_deterministic :
    (∀ (los : Noun → Noun → Noun → Noun → Except Bail Noun) (a b : Noun),
      a = b → u3qdu_lrsin los a = u3qdu_lrsin los b) ∧
    (∀ cog tip cog2 tip2 : Noun, cog = cog2 → tip = tip2 →
      j2_mby_Pt6_face cog tip = j2_mby_Pt6_face cog2 tip2) :=
  ⟨fun _ _ _ h => by rw [h], fun _ _ _ _ h1 h2 => by rw [h1, h2]⟩

/-- Witness for C8 at concrete inputs. -/
theorem C8_pure_deterministic_witness :
    u3qdu_lrsin losNode (Noun.atom 0) = u3qdu_lrsin losNode (Noun.atom 0) ∧
    j2_mby_Pt6_face (Noun.atom 0) (Noun.atom 1) =
      j2_mby_Pt6_face (Noun.atom 0) (Noun.atom 1) :=
  ⟨C8_pure_deterministic.1 losNode (Noun.atom 0) (Noun.atom 0) rfl,
   C8_pure_deterministic.2 (Noun.atom 0) (Noun.atom 1) (Noun.atom 0)
     (Noun.atom 1) rfl rfl⟩

/-- Claim C7: the outer wrappers reject shape violations and otherwise pass
the extracted sample subnouns to the kernels.  For the rotation wrapper:
if axis 6 of the core does not resolve, or resolves to an atom, the result
is the c3__exit bail; if it resolves to a cell, the result is exactly the
kernel applied to that cell.  For the face wrapper: if axis 12 or axis 13
does not resolve, the result is the c3__fail bail; if both resolve, the
result is exactly the kernel applied to the two extracted subnouns. -/
theorem C7_wrapper_shape
    (los : Noun → Noun → Noun → Noun → Except Bail Noun) (cor : Noun) :
    (u3r_at 6 cor = none → u3wdu_lrsin los cor = Except.error Bail.exit) ∧
    (∀ k : Nat, u3r_at 6 cor = some (Noun.atom k) →
      u3wdu_lrsin los cor = Except.error Bail.exit) ∧
    (∀ h t : Noun, u3r_at 6 cor = some (Noun.cell h t) →
      u3wdu_lrsin los cor = u3qdu_lrsin los (Noun.cell h t)) ∧
    (u3r_at 12 cor = none → j2_mb_Pt6_face cor = Except.error Bail.fail) ∧
    (u3r_at 13 cor = none → j2_mb_Pt6_face cor = Except.error Bail.fail) ∧
    (∀ cog tip : Noun, u3r_at 12 cor = some cog → u3r_at 13 cor = some tip →
      j2_mb_Pt6_face cor = Except.ok (j2_mby_Pt6_face cog tip)) := by
  refine ⟨?_, ?_, ?_, ?_, ?_, ?_⟩
  · intro h; simp [u3wdu_lrsin, h]
  · intro k h; simp [u3wdu_lrsin, h]
  · intro hh tt h; simp [u3wdu_lrsin, h]
  · intro h
    cases h13 : u3r_at 13 cor <;> simp [j2_mb_Pt6_face, h, h13]
  · intro h
    cases h12 : u3r_at 12 cor <;> simp [j2_mb_Pt6_face, h, h12]
  · intro cog tip h12 h13; simp [j2_mb_Pt6_face, h12, h13]

/-- Witness for C7: a core whose sample axis does not resolve bails, and
the concrete core corEx (sample [1 2] at axis 6, so atom 1 at axis 12 and
atom 2 at axis 13) reaches both kernels. -/
theorem C7_wrapper_shape_witness :
    u3wdu_lrsin losNode (Noun.atom 0) = Except.error Bail.exit ∧
    u3wdu_lrsin losNode corEx =
      u3qdu_lrsin losNode (Noun.cell (Noun.atom 1) (Noun.atom 2)) ∧
    j2_mb_Pt6_face corEx =
      Except.ok (j2_mby_Pt6_face (Noun.atom 1) (Noun.atom 2)) :=
  ⟨(C7_wrapper_shape losNode (Noun.atom 0)).1 rfl,
   (C7_wrapper_shape losNode corEx).2.2.1 (Noun.atom 1) (Noun.atom 2) rfl,
   (C7_wrapper_shape losNode corEx).2.2.2.2.2 (Noun.atom 1) (Noun.atom 2)
     rfl rfl⟩

theorem losNode_keys (n l m r res : Noun) (h : losNode n l m r = Except.ok res) :
    keysOf res = keysOf l ++ [n] ++ keysOf r := by
  injection h with h2
  subst h2
  simp [keysOf, u3nq]

theorem losNode_meta (n l m r res : Noun) (h : losNode n l m r = Except.ok res) :
    metaOf res = metaOf l ++ [m] ++ metaOf r := by
  injection h with h2
  subst h2
  simp [metaOf, u3nq]

/-- Claim C4, amended: relative to a single-rotation primitive los that
preserves in-order keys and metadata as a node constructor would, every
successful run of u3qdu_lrsin preserves the multiset of keys and the exact
in-order metadata sequence of the input (each original key and metadata
value is present exactly once), and preserves the in-order key sequence
when the tag is c3__llos; the last conjunct records that the sequence the
specification describes for the input is the one compared against.  The
key sequence is not preserved for the c3__rlos tag (see the
counterexample), where the outer and inner keys exchange in-order
positions. -/
theorem C4_amended_rotation_preserves_keys
    (los : Noun → Noun → Noun → Noun → Except Bail Noun)
    (hk : ∀ n l m r res, los n l m r = Except.ok res →
      keysOf res = keysOf l ++ [n] ++ keysOf r)
    (hm : ∀ n l m r res, los n l m r = Except.ok res →
      metaOf res = metaOf l ++ [m] ++ metaOf r)
    (v : Nat) (n_a x n_b l_b m_b r_b m_a r_a res : Noun)
    (hres : u3qdu_lrsin los (lrsinArg v n_a x n_b l_b m_b r_b m_a r_a) =
      Except.ok res) :
    (keysOf res : Multiset Noun) =
      ((keysOf l_b ++ [n_b] ++ keysOf r_b ++ [n_a] ++ keysOf r_a :
        List Noun) : Multiset Noun) ∧
    metaOf res = metaOf l_b ++ [m_b] ++ metaOf r_b ++ [m_a] ++ metaOf r_a ∧
    (v = c3__llos →
      keysOf res = keysOf l_b ++ [n_b] ++ keysOf r_b ++ [n_a] ++ keysOf r_a) ∧
    specInorderKeys (lrsinArg v n_a x n_b l_b m_b r_b m_a r_a) =
      some (keysOf l_b ++ [n_b] ++ keysOf r_b ++ [n_a] ++ keysOf r_a) := by
  rw [u3qdu_lrsin_tagged] at hres
  have hspec : specInorderKeys (lrsinArg v n_a x n_b l_b m_b r_b m_a r_a) =
      some (keysOf l_b ++ [n_b] ++ keysOf r_b ++ [n_a] ++ keysOf r_a) := by
    simp [specInorderKeys, lrsinArg, u3nq, keysOf, List.append_assoc]
  split_ifs at hres with h1 h2
  · cases hinner : los n_a r_b m_a r_a with
    | error e => rw [hinner] at hres; simp [Except.bind] at hres
    | ok inner =>
      rw [hinner] at hres
      simp only [Except.bind] at hres
      have k1 := hk n_a r_b m_a r_a inner hinner
      have k2 := hk n_b l_b m_b inner res hres
      have m1 := hm n_a r_b m_a r_a inner hinner
      have m2 := hm n_b l_b m_b inner res hres
      rw [k1] at k2
      rw [m1] at m2
      refine ⟨?_, ?_, fun _ => ?_, hspec⟩
      · rw [k2]; simp [List.append_assoc]
      · rw [m2]; simp [List.append_assoc]
      · rw [k2]; simp [List.append_assoc]
  · cases hinner : los n_b r_b m_a r_a with
    | error e => rw [hinner] at hres; simp [Except.bind] at hres
    | ok inner =>
      rw [hinner] at hres
      simp only [Except.bind] at hres
      have k1 := hk n_b r_b m_a r_a inner hinner
      have k2 := hk n_a l_b m_b inner res hres
      have m1 := hm n_b r_b m_a r_a inner hinner
      have m2 := hm n_a l_b m_b inner res hres
      rw [k1] at k2
      rw [m1] at m2
      refine ⟨?_, ?_, fun hv => absurd hv h1, hspec⟩
      · rw [k2]
        simp only [← Multiset.coe_add, List.append_assoc]
        abel
      · rw [m2]; simp [List.append_assoc]

/-- Witness for the amended C4, at the node-constructor instantiation of
the single-rotation primitive and a concrete c3__llos input. -/
theorem C4_amended_rotation_preserves_keys_witness :
    (keysOf (u3nq (Noun.atom 2) (Noun.atom 0) (Noun.atom 3)
        (u3nq (Noun.atom 1) (Noun.atom 0) (Noun.atom 4) (Noun.atom 0))) :
      Multiset Noun) =
      ((keysOf (Noun.atom 0) ++ [Noun.atom 2] ++ keysOf (Noun.atom 0) ++
        [Noun.atom 1] ++ keysOf (Noun.atom 0) : List Noun) : Multiset Noun) ∧
    metaOf (u3nq (Noun.atom 2) (Noun.atom 0) (Noun.atom 3)
        (u3nq (Noun.atom 1) (Noun.atom 0) (Noun.atom 4) (Noun.atom 0))) =
      metaOf (Noun.atom 0) ++ [Noun.atom 3] ++ metaOf (Noun.atom 0) ++
        [Noun.atom 4] ++ metaOf (Noun.atom 0) ∧
    (c3__llos = c3__llos →
      keysOf (u3nq (Noun.atom 2) (Noun.atom 0) (Noun.atom 3)
          (u3nq (Noun.atom 1) (Noun.atom 0) (Noun.atom 4) (Noun.atom 0))) =
        keysOf (Noun.atom 0) ++ [Noun.atom 2] ++ keysOf (Noun.atom 0) ++
          [Noun.atom 1] ++ keysOf (Noun.atom 0)) ∧
    specInorderKeys (lrsinArg c3__llos (Noun.atom 1) (Noun.atom 0)
        (Noun.atom 2) (Noun.atom 0) (Noun.atom 3) (Noun.atom 0)
        (Noun.atom 4) (Noun.atom 0)) =
      some (keysOf (Noun.atom 0) ++ [Noun.atom 2] ++ keysOf (Noun.atom 0) ++
        [Noun.atom 1] ++ keysOf (Noun.atom 0)) :=
  C4_amended_rotation_preserves_keys losNode losNode_keys losNode_meta
    c3__llos (Noun.atom 1) (Noun.atom 0) (Noun.atom 2) (Noun.atom 0)
    (Noun.atom 3) (Noun.atom 0) (Noun.atom 4) (Noun.atom 0)
    (u3nq (Noun.atom 2) (Noun.atom 0) (Noun.atom 3)
      (u3nq (Noun.atom 1) (Noun.atom 0) (Noun.atom 4) (Noun.atom 0))) rfl

/-- Counterexample to C4 as stated: with the node-constructor
instantiation of the single-rotation primitive — which preserves in-order
keys and metadata — a concrete c3__rlos input whose in-order key sequence
is [2, 1] rotates to a result whose in-order key sequence is [1, 2]: the
outer and inner keys exchange in-order positions, so the in-order key
sequence is not preserved. -/
theorem C4_counterexample :
    u3qdu_lrsin losNode
        (lrsinArg c3__rlos (Noun.atom 1) (Noun.atom 0) (Noun.atom 2)
          (Noun.atom 0) (Noun.atom 0) (Noun.atom 0) (Noun.atom 0)
          (Noun.atom 0)) =
      Except.ok (u3nq (Noun.atom 1) (Noun.atom 0) (Noun.atom 0)
        (u3nq (Noun.atom 2) (Noun.atom 0) (Noun.atom 0) (Noun.atom 0))) ∧
    keysOf (u3nq (Noun.atom 1) (Noun.atom 0) (Noun.atom 0)
        (u3nq (Noun.atom 2) (Noun.atom 0) (Noun.atom 0) (Noun.atom 0))) =
      [Noun.atom 1, Noun.atom 2] ∧
    specInorderKeys
        (lrsinArg c3__rlos (Noun.atom 1) (Noun.atom 0) (Noun.atom 2)
          (Noun.atom 0) (Noun.atom 0) (Noun.atom 0) (Noun.atom 0)
          (Noun.atom 0)) =
      some [Noun.atom 2, Noun.atom 1] ∧
    ([Noun.atom 1, Noun.atom 2] : List Noun) ≠ [Noun.atom 2, Noun.atom 1] :=
  ⟨rfl, rfl, rfl, by decide⟩
